import Mathlib

/-!
Verification of the bedbug freezing-time estimator (`streamlit_app.py`).

The core of the program is `interpolate_freezing_time`, which fits a cubic
curve through four fixed empirical `(temperature, days)` anchor points and
evaluates it at a query temperature, with hard threshold rules below -15°F
(instant freeze, 0 days) and at or above 32°F (does not freeze, `None`).

Real numbers are embedded as `ℚ` (the anchors and all constants are
rational, and the interpolant through rational nodes is a rational
function of the query, so every exactness claim about the curve is a fact
of rational arithmetic). The Python `None` result is embedded as
`Option.none`.
-/

/-- The fixed anchor dataset, `data_points` in the source:
`{32: 21, -4: 2, 0: 4, -15: 0}`, as a `(temperature, days)` association
list in the source's literal order. -/
def data_points : List (ℚ × ℚ) := [(32, 21), (-4, 2), (0, 4), (-15, 0)]

/-- `temps = sorted(data_points.keys())` in the source. -/
def temps : List ℚ := [-15, -4, 0, 32]

/-- `days = [data_points[t] for t in temps]` in the source. -/
def days : List ℚ := temps.map fun t => (data_points.lookup t).getD 0

/-- Evaluation at `x` of the unique interpolating polynomial of degree
`< pts.length` through the nodes `pts` (temperatures pairwise distinct),
in Lagrange form. -/
def lagrangeEval (pts : List (ℚ × ℚ)) (x : ℚ) : ℚ :=
  (pts.map fun p =>
    p.2 * ((pts.filter fun q => q.1 != p.1).map fun q =>
      (x - q.1) / (p.1 - q.1)).prod).sum

/-- The curve `f = interp1d(temps, days, kind='cubic',
fill_value='extrapolate')` of the source. `interp1d` with `kind='cubic'`
builds the not-a-knot cubic spline through the nodes; on exactly four
nodes the two not-a-knot conditions force the two cubic pieces to
coincide, so the spline is the unique polynomial of degree ≤ 3 through
the four points, written here in Lagrange form.
`fill_value='extrapolate'` means the same polynomial is evaluated outside
the node span as well, which this total function does. -/
def cubicInterp (x : ℚ) : ℚ := lagrangeEval (temps.zip days) x

/-- `interpolate_freezing_time` of the source:
`if temp_f <= -15: return 0`; `elif temp_f >= 32: return None`;
`return max(0, float(f(temp_f)))`. -/
def interpolate_freezing_time (temp_f : ℚ) : Option ℚ :=
  if temp_f ≤ -15 then some 0
  else if 32 ≤ temp_f then none
  else some (max 0 (cubicInterp temp_f))

/-- The lowest anchor temperature (head of the ascending-sorted `temps`),
the spec's LOWER_BOUND. -/
def anchorLow : ℚ := temps.headD 0

/-- The highest anchor temperature (last of the ascending-sorted `temps`),
the spec's UPPER_BOUND. -/
def anchorHigh : ℚ := temps.getLastD 0

/-- The error taxonomy of the spec that is relevant to the estimator
dataset: fewer than two distinct-temperature anchors. -/
inductive EstimatorError where
  | configurationError
  deriving DecidableEq

/-- Modelled from the spec: the source fixes `data_points` as a
module-level literal and `interpolate_freezing_time` takes no dataset
argument, so the `ConfigurationError` guard the spec requires ("must be
guarded if the anchor set is ever made configurable") corresponds to no
code under `src/`. Following the spec's words: the estimator over a
configurable anchor dataset fails with `ConfigurationError` when the
dataset has fewer than two distinct-temperature anchor points; otherwise
it applies the instant-freeze rule at the lowest anchor temperature and
the does-not-freeze rule at the freezing-point threshold 32, and in
between evaluates the interpolating polynomial through the anchors,
clamped to be non-negative. -/
def estimateWith (pts : List (ℚ × ℚ)) (t : ℚ) :
    Except EstimatorError (Option ℚ) :=
  let distinct := (pts.map Prod.fst).dedup
  if distinct.length < 2 then
    Except.error EstimatorError.configurationError
  else if t ≤ (distinct.min?.getD 0) then
    Except.ok (some 0)
  else if 32 ≤ t then
    Except.ok none
  else
    Except.ok (some (max 0 (lagrangeEval pts t)))

/-! ## Evaluation lemmas for the fitted cubic -/

theorem days_eval : days = [0, 2, 4, 21] := by
  simp +decide [days, temps, data_points, List.lookup]

/-- Closed form of the fitted cubic (the unique degree-≤3 polynomial
through `(-15, 0)`, `(-4, 2)`, `(0, 4)`, `(32, 21)`). -/
theorem cubic_closed (x : ℚ) : cubicInterp x =
    4 + x * (138691 / 248160) + x ^ 2 * (38677 / 2977920)
      + x ^ 3 * (-1289 / 2977920) := by
  norm_num [cubicInterp, lagrangeEval, temps, days_eval]
  ring

theorem cubic_at_m4 : cubicInterp (-4) = 2 := by rw [cubic_closed]; norm_num

theorem cubic_at_0 : cubicInterp 0 = 4 := by rw [cubic_closed]; norm_num

theorem cubic_at_32 : cubicInterp 32 = 21 := by rw [cubic_closed]; norm_num

theorem cubic_at_10 : cubicInterp 10 = 141515 / 13536 := by
  rw [cubic_closed]; norm_num

theorem interp_at_10 : interpolate_freezing_time 10 = some (141515 / 13536) := by
  rw [interpolate_freezing_time]
  rw [if_neg (by norm_num), if_neg (by norm_num), cubic_at_10]
  norm_num [max_eq_right]

/-! ## Claims -/

/-- C1 amended: every anchor point `(t, d)` with `t < 32` is reproduced
exactly by `interpolate_freezing_time`; the anchor at temperature 32 is
instead intercepted by the `temp_f >= 32` threshold (see the
counterexample), so the interpolation passes through every anchor except
that one. -/
theorem C1_anchors_below_upper (t d : ℚ) (hmem : (t, d) ∈ data_points)
    (ht : t < 32) : interpolate_freezing_time t = some d := by
  simp only [data_points, List.mem_cons, List.not_mem_nil, or_false,
    Prod.mk.injEq] at hmem
  rcases hmem with ⟨h1, h2⟩ | ⟨h1, h2⟩ | ⟨h1, h2⟩ | ⟨h1, h2⟩ <;>
    subst h1 <;> subst h2
  · exact absurd ht (by norm_num)
  · rw [interpolate_freezing_time, if_neg (by norm_num),
      if_neg (by norm_num), cubic_at_m4]
    norm_num [max_eq_right]
  · rw [interpolate_freezing_time, if_neg (by norm_num),
      if_neg (by norm_num), cubic_at_0]
    norm_num [max_eq_right]
  · rw [interpolate_freezing_time, if_pos (by norm_num)]

theorem C1_anchors_below_upper_witness :
    ((-4 : ℚ), (2 : ℚ)) ∈ data_points ∧
      interpolate_freezing_time (-4) = some 2 :=
  ⟨by simp [data_points],
    C1_anchors_below_upper (-4) 2 (by simp [data_points]) (by norm_num)⟩

/-- C1 counterexample: `(32, 21)` is an anchor point of the dataset, yet
`interpolate_freezing_time 32` returns the does-not-freeze marker `none`
rather than `some 21`, because the `temp_f >= 32` check fires before the
curve is evaluated. -/
theorem C1_counterexample :
    ((32 : ℚ), (21 : ℚ)) ∈ data_points ∧
      interpolate_freezing_time 32 ≠ some 21 := by
  refine ⟨by simp [data_points], ?_⟩
  rw [interpolate_freezing_time, if_neg (by norm_num), if_pos (by norm_num)]
  simp

/-- C2: for every temperature `t ≤ -15`, the estimator returns a duration
of exactly 0. -/
theorem C2_low_temp_instant (t : ℚ) (h : t ≤ -15) :
    interpolate_freezing_time t = some 0 := by
  rw [interpolate_freezing_time, if_pos h]

theorem C2_low_temp_instant_witness :
    interpolate_freezing_time (-20) = some 0 :=
  C2_low_temp_instant (-20) (by norm_num)

/-- C3: for every temperature `t ≥ 32`, the estimator returns the
does-not-freeze marker `none`, not a numeric duration. -/
theorem C3_high_temp_no_freeze (t : ℚ) (h : 32 ≤ t) :
    interpolate_freezing_time t = none := by
  rw [interpolate_freezing_time, if_neg (by linarith), if_pos h]

theorem C3_high_temp_no_freeze_witness :
    interpolate_freezing_time 40 = none :=
  C3_high_temp_no_freeze 40 (by norm_num)

/-- C4: for every temperature strictly between -15 and 32, the estimator
returns a numeric value that is at least 0: the raw cubic value is floored
at 0 by the `max 0` clamp. -/
theorem C4_nonneg_between (t : ℚ) (h1 : -15 < t) (h2 : t < 32) :
    ∃ v, interpolate_freezing_time t = some v ∧ 0 ≤ v := by
  refine ⟨max 0 (cubicInterp t), ?_, le_max_left 0 _⟩
  rw [interpolate_freezing_time, if_neg (not_le.mpr h1),
    if_neg (not_le.mpr h2)]

theorem C4_nonneg_between_witness :
    ∃ v, interpolate_freezing_time 10 = some v ∧ 0 ≤ v :=
  C4_nonneg_between 10 (by norm_num) (by norm_num)

/-- C6 counterexample (negation of the claim): there is no query
temperature strictly between -15 and 32 lying outside the span covered by
the anchor points, because the outermost anchor temperatures are exactly
-15 and 32 — the thresholds leave no residual extrapolation zone. -/
theorem C6_counterexample :
    ¬ ∃ t : ℚ, -15 < t ∧ t < 32 ∧ (t < anchorLow ∨ anchorHigh < t) := by
  rintro ⟨t, h1, h2, h3 | h3⟩
  · rw [show anchorLow = -15 from rfl] at h3
    linarith
  · rw [show anchorHigh = 32 from rfl] at h3
    linarith

/-- C6 amended: the residual extrapolation zone is empty. Every query
temperature strictly between -15 and 32 already lies within the span
covered by the anchors (whose outermost temperatures equal the two
thresholds), and for each such temperature the estimator evaluates the
fitted cubic (clamped at 0) — `fill_value='extrapolate'` is never
exercised between the thresholds. -/
theorem C6_no_extrapolation_zone (t : ℚ) (h1 : -15 < t) (h2 : t < 32) :
    anchorLow ≤ t ∧ t ≤ anchorHigh ∧
      interpolate_freezing_time t = some (max 0 (cubicInterp t)) := by
  refine ⟨?_, ?_, ?_⟩
  · rw [show anchorLow = -15 from rfl]; linarith
  · rw [show anchorHigh = 32 from rfl]; linarith
  · rw [interpolate_freezing_time, if_neg (not_le.mpr h1),
      if_neg (not_le.mpr h2)]

theorem C6_no_extrapolation_zone_witness :
    anchorLow ≤ (10 : ℚ) ∧ (10 : ℚ) ≤ anchorHigh ∧
      interpolate_freezing_time 10 = some (max 0 (cubicInterp 10)) :=
  C6_no_extrapolation_zone 10 (by norm_num) (by norm_num)

/-- C7: the estimator is deterministic and pure — it is a function of the
query temperature alone (the dataset is a fixed constant), so two calls on
equal inputs give equal results; the embedding is a pure function, so
there are no side effects to model. -/
theorem C7_deterministic (x₁ x₂ : ℚ) (h : x₁ = x₂) :
    interpolate_freezing_time x₁ = interpolate_freezing_time x₂ :=
  congrArg interpolate_freezing_time h

theorem C7_deterministic_witness :
    interpolate_freezing_time 10 = interpolate_freezing_time 10 :=
  C7_deterministic 10 10 rfl

/-- C8: `interpolate_freezing_time 10` is a numeric value `v` (namely
141515/13536 ≈ 10.45) with `0 ≤ v ≤ 21`. -/
theorem C8_estimate_at_10 :
    ∃ v : ℚ, interpolate_freezing_time 10 = some v ∧ 0 ≤ v ∧ v ≤ 21 :=
  ⟨141515 / 13536, interp_at_10, by norm_num, by norm_num⟩

/-- C9: the estimator returns the does-not-freeze marker exactly for
temperatures `≥ 32`; every numeric result it ever returns (hence every
result for temperatures `< 32`) is non-negative, and it never fails. -/
theorem C9_marker_iff_high (t : ℚ) :
    (interpolate_freezing_time t = none ↔ 32 ≤ t) ∧
      (∀ v, interpolate_freezing_time t = some v → 0 ≤ v) := by
  rw [interpolate_freezing_time]
  split_ifs with h1 h2
  · refine ⟨⟨fun h => by simp at h, fun h => absurd (le_trans h h1) (by norm_num)⟩, ?_⟩
    intro v hv
    rw [Option.some_inj] at hv
    rw [← hv]
  · exact ⟨⟨fun _ => h2, fun _ => rfl⟩, fun v hv => by simp at hv⟩
  · refine ⟨⟨fun h => by simp at h, fun h => absurd h h2⟩, ?_⟩
    intro v hv
    rw [Option.some_inj] at hv
    rw [← hv]
    exact le_max_left 0 _

theorem C9_marker_iff_high_witness :
    interpolate_freezing_time 40 = none ∧ (0 : ℚ) ≤ 141515 / 13536 :=
  ⟨(C9_marker_iff_high 40).1.mpr (by norm_num),
    (C9_marker_iff_high 10).2 (141515 / 13536) interp_at_10⟩

/-- C10 (spec-modelled): if the anchor dataset has fewer than two
distinct-temperature anchor points, the configurable estimator fails with
`ConfigurationError`, surfaced immediately to the caller. -/
theorem C10_config_error (pts : List (ℚ × ℚ)) (t : ℚ)
    (h : ((pts.map Prod.fst).dedup).length < 2) :
    estimateWith pts t = Except.error EstimatorError.configurationError := by
  rw [estimateWith]
  simp only [if_pos h]

theorem C10_config_error_witness :
    estimateWith [((0 : ℚ), (4 : ℚ))] 10 =
      Except.error EstimatorError.configurationError :=
  C10_config_error [(0, 4)] 10 (by simp)
